import Mathlib

/-!
Verification of the av_gate reverse proxy (src/av_gate.py).

The embedding below translates the pure logic of the module into Lean.
Python byte strings are modelled as Lean `String`s (one `Char` per byte);
Python `bytes.split`, `str.partition`, `str.replace` and friends are
re-implemented structurally so that every definition is executable.
External collaborators (the HTTP stack, the email/lxml parsers, the file
system, sockets) appear as explicit inputs: a `ParsedMsg` records the
outcome of the MIME/XML parse of an upstream body, `readFile` abstracts
the replacement-file reads, and the scanner backend is a function
argument, exactly as `scan_file` is a module-level indirection in the
source.  Fallible Python code (KeyError, assert, raise) is modelled with
`Except String`.
-/

deriving instance DecidableEq for Except

namespace AvGate

/-- Models `str.lower` / `bytes.lower` (ASCII case folding). -/
def pyLower (s : String) : String := String.mk (s.data.map Char.toLower)

/-- List-level prefix test used by the string helpers. -/
def startsWithList (l pat : List Char) : Bool := (l.take pat.length) == pat

/-- Models `str.startswith` / `bytes.startswith`. -/
def pyStartsWith (s pat : String) : Bool := startsWithList s.data pat.data

/-- Models `s[n:]`. -/
def pyDrop (s : String) (n : Nat) : String := String.mk (s.data.drop n)

/-- Models `s[:n]`. -/
def pyTake (s : String) (n : Nat) : String := String.mk (s.data.take n)

/-- Models `s[1:-1]` (drop the first and the last character). -/
def pyInner (s : String) : String :=
  let l := s.data.drop 1
  String.mk (l.take (l.length - 1))

/-- Splitting worker for `pySplit`: `acc` holds the current chunk reversed.
    The recursion is driven by a fuel counter (structurally) so that the
    function reduces inside the kernel; `pySplit` supplies fuel equal to
    the input length, which is enough for any non-empty separator because
    every step consumes at least one character. -/
def splitSeqAux (sep : List Char) : Nat → List Char → List Char → List (List Char)
  | _, acc, [] => [acc.reverse]
  | 0, acc, l => [acc.reverse ++ l]
  | fuel + 1, acc, l@(c :: rest) =>
    if startsWithList l sep then
      acc.reverse :: splitSeqAux sep fuel [] (l.drop sep.length)
    else
      splitSeqAux sep fuel (c :: acc) rest

/-- Models Python `s.split(sep)` for a non-empty separator
    (leftmost, non-overlapping occurrences). -/
def pySplit (s sep : String) : List String :=
  (splitSeqAux sep.data s.data.length [] s.data).map String.mk

/-- Models `sep.join(parts)` (`bytes.join`). -/
def joinSep (sep : String) : List String → String
  | [] => ""
  | [x] => x
  | x :: rest => x ++ sep ++ joinSep sep rest

/-- Models `s.split(sep, 1)` unpacked into a pair: `none` when the
    separator does not occur (Python raises ValueError on unpacking). -/
def pySplitFirst (s sep : String) : Option (String × String) :=
  match pySplit s sep with
  | [] => none
  | [_] => none
  | x :: rest => some (x, joinSep sep rest)

/-- Models `s.partition(sep)[0]`: the text before the first occurrence of
    `sep`, or all of `s` when `sep` does not occur. -/
def pyPartitionFirst (s sep : String) : String := (pySplit s sep).headD ("")

/-- Models Python `s.replace(old, new)` for a non-empty `old`. -/
def pyReplace (s old new : String) : String := joinSep new (pySplit s old)

/-- Models `sub in s` for byte strings. -/
def hasSubstring : List Char → List Char → Bool
  | [], pat => pat.isEmpty
  | l@(_ :: t), pat => startsWithList l pat || hasSubstring t pat

/-- Models `sub in s` on the `String` level. -/
def strContains (s sub : String) : Bool := hasSubstring s.data sub.data

/-- Value of one hexadecimal digit, `none` for a non-hex character. -/
def hexVal (c : Char) : Option Nat :=
  if '0' ≤ c ∧ c ≤ '9' then some (c.toNat - '0'.toNat)
  else if 'a' ≤ c ∧ c ≤ 'f' then some (c.toNat - 'a'.toNat + 10)
  else if 'A' ≤ c ∧ c ≤ 'F' then some (c.toNat - 'A'.toNat + 10)
  else none

/-- Models `urllib.parse.unquote` restricted to single-byte escapes:
    every `%XX` with two hex digits becomes the character `XX`; a `%` not
    followed by two hex digits is kept literally (as in Python). -/
def unquoteList : List Char → List Char
  | '%' :: a :: b :: rest =>
    (match hexVal a, hexVal b with
     | some ha, some hb => Char.ofNat (16 * ha + hb) :: unquoteList rest
     | _, _ => '%' :: unquoteList (a :: b :: rest))
  | c :: rest => c :: unquoteList rest
  | [] => []

/-- Models `urllib.parse.unquote` on `String`. -/
def unquote (s : String) : String := String.mk (unquoteList s.data)

/-- `extract_id` (src/av_gate.py:425-436): returns the content id without
    prefix and postfix.  URL-decode, strip a leading `cid:`, strip the
    surrounding angle brackets, truncate at the first `@`. -/
def extract_id (id : String) : String :=
  let id := unquote id
  let id := if pyStartsWith id ("cid:") then pyDrop id 4 else id
  let id := if pyStartsWith id ("<") then pyInner id else id
  let id := if id.data.contains '@' then String.mk (id.data.takeWhile (fun c => c != '@')) else id
  id

/-- Specification-side step: URL-decoding (same function as the code uses). -/
def strip_cid_scheme (s : String) : String :=
  if pyStartsWith s ("cid:") then pyDrop s 4 else s

/-- Specification-side step: strip surrounding angle brackets the way the
    code does (`s[1:-1]` whenever `s` starts with `<`). -/
def strip_angle (s : String) : String :=
  if pyStartsWith s ("<") then pyInner s else s

/-- Specification-side step: truncate at the first `@`. -/
def truncate_at_amp (s : String) : String :=
  if s.data.contains '@' then String.mk (s.data.takeWhile (fun c => c != '@')) else s

/-- Case-insensitive comparison of the head of `l` against an
    (already lowercase) pattern, for the `re.I` regex searches. -/
def lowerPrefixMatch (l pat : List Char) : Bool :=
  ((l.take pat.length).map Char.toLower) == pat

/-- Lazy capture for `(.*?)\r\n`: the shortest run of non-`\n` characters
    before a literal `\r\n`.  `none` when a bare `\n` or the end of input
    intervenes (the regex `.` never matches `\n`). -/
def capUntilCRLF : List Char → Option (List Char)
  | '\r' :: '\n' :: _ => some []
  | '\n' :: _ => none
  | c :: rest => (capUntilCRLF rest).map (fun cap => c :: cap)
  | [] => none

/-- The literal of the Content-ID regex, lowercased (`re.I`). -/
def contentIdPat : List Char := "\r\ncontent-id: ".data

/-- Leftmost-match scan for `re.search(b"\r\nContent-ID: (.*?)\r\n", content, re.I)`
    followed by `extract_id`, as in `get_content_id`. -/
def get_content_id_aux : List Char → Option String
  | [] => none
  | l@(_ :: rest) =>
    if lowerPrefixMatch l contentIdPat then
      match capUntilCRLF (l.drop contentIdPat.length) with
      | some cap => some (extract_id (String.mk cap))
      | none => get_content_id_aux rest
    else get_content_id_aux rest

/-- `get_content_id` (src/av_gate.py:518-521): the normalized Content-ID
    of a raw MIME segment, `none` when the segment has no Content-ID
    header. -/
def get_content_id (content : String) : Option String :=
  get_content_id_aux content.data

/-- Lazy capture for `(.*?)"`: the shortest run of non-`\n` characters
    before a literal `"`. -/
def capUntilQuote : List Char → Option (List Char)
  | '"' :: _ => some []
  | '\n' :: _ => none
  | c :: rest => (capUntilQuote rest).map (fun cap => c :: cap)
  | [] => none

/-- The literal of the boundary regex, lowercased (`re.I`). -/
def boundaryPat : List Char := "boundary=\"".data

/-- Leftmost-match scan for the boundary regex of src/av_gate.py:481
    (pattern boundary="(.*?)" with re.I). -/
def boundary_param_aux : List Char → Option String
  | [] => none
  | l@(_ :: rest) =>
    if lowerPrefixMatch l boundaryPat then
      match capUntilQuote (l.drop boundaryPat.length) with
      | some cap => some (String.mk cap)
      | none => boundary_param_aux rest
    else boundary_param_aux rest

/-- The multipart boundary declared in a Content-Type header value. -/
def boundary_param (content_type : String) : Option String :=
  boundary_param_aux content_type.data

/-- Index of the last occurrence of character `c` in `l`. -/
def lastIdxOf (l : List Char) (c : Char) : Option Nat :=
  match l.reverse.findIdx? (fun x => x == c) with
  | some j => some (l.length - 1 - j)
  | none => none

/-- All start positions of the literal `Threat=` inside `stretch`. -/
def threatStarts (stretch : List Char) : List Nat :=
  (List.range stretch.length).filter
    (fun j => ((stretch.drop j).take 7) == ("Threat=").data)

/-- Greedy semantics of `.*Threat=(.*);` on a single `\n`-free stretch:
    the first `.*` maximises the chosen `Threat=` occurrence, then the
    capture extends to the last `;` of the stretch. -/
def threatCapture (stretch : List Char) : Option (List Char) :=
  match lastIdxOf stretch ';' with
  | none => none
  | some p =>
    match ((threatStarts stretch).filter (fun j => j + 7 ≤ p)).getLast? with
    | none => none
    | some j => some ((stretch.drop (j + 7)).take (p - (j + 7)))

/-- The literal of the infection-header regex (case sensitive: that
    search carries no `re.I`). -/
def infectionPat : List Char := "X-Infection-Found: ".data

/-- Leftmost-match scan for
    `re.search(b"X-Infection-Found: .*Threat=(.*);", first_block)`
    (src/av_gate.py:615); `.` never crosses a `\n`, so the match is
    confined to the line of the header. -/
def icap_threat_aux : List Char → Option String
  | [] => none
  | l@(_ :: rest) =>
    if (l.take infectionPat.length) == infectionPat then
      match threatCapture ((l.drop infectionPat.length).takeWhile (fun c => c != '\n')) with
      | some cap => some (String.mk cap)
      | none => icap_threat_aux rest
    else icap_threat_aux rest

/-- Captured threat name of the `X-Infection-Found` header, if any. -/
def icap_threat (first_block : String) : Option String :=
  icap_threat_aux first_block.data

/-- `scan_file_icap` (src/av_gate.py:568-620), response interpretation.
    The socket exchange is external; `rcv` is `b"".join(rcv_chunks)`, the
    raw bytes read back from the ICAP server.  A scan result is the pair
    `[status, signature]` the ClamAV backend also produces. -/
def scan_file_icap (rcv : String) : Except String (String × Option String) :=
  let rsp := pyTake rcv 2048
  match pySplitFirst rsp ("\r\n\r\n") with
  | none => Except.error ("ValueError: not enough values to unpack")
  | some (first_block, second_block) =>
    let first_line := pyPartitionFirst first_block ("\r\n")
    let http_response_code := pyPartitionFirst second_block ("\r\n")
    if first_line = "ICAP/1.0 204 No modifications needed" then Except.ok ("OK", none)
    else if first_line ≠ "ICAP/1.0 200 OK" then Except.error ("EnvironmentError: ICAP not OK")
    else if http_response_code ≠ "HTTP/1.0 403 Forbidden" then Except.ok ("OK", none)
    else
      match icap_threat first_block with
      | some t => Except.ok ("FOUND", some t)
      | none => Except.ok ("FOUND", some ("unknown"))

/-- `get_client_config` (src/av_gate.py:240-255).  `x_real_ip` is the
    value of the trusted `X-real-ip` header (`none` when absent, which
    Flask surfaces as a 400 BadRequestKeyError); `host` is the `Host`
    header; `sections` are the configured profile section names.  The
    result is the resolved section name, or the HTTP error status. -/
def get_client_config (x_real_ip : Option String) (host : String)
    (sections : List String) : Except Nat String :=
  match x_real_ip with
  | none => Except.error 400
  | some request_ip =>
    let port := if host.data.contains ':' then (pySplit host (":")).getD 1 ("") else ("443")
    let client := request_ip ++ ":" ++ port
    if client ∈ sections then Except.ok client
    else
      let fallback := "*:" ++ port
      if fallback ∈ sections then Except.ok fallback
      else Except.error 503

/-- Last-binding lookup in an association list: Python dict semantics
    when the list was built by successive insertions. -/
def lookupLast {α : Type} (l : List (String × α)) (k : String) : Option α :=
  (l.reverse.find? (fun p => p.1 == k)).map (fun p => p.2)

/-- Models `os.path.splitext(name)[0]`: the name up to its last dot,
    where leading dots belong to the root. -/
def splitext_root (name : String) : String :=
  let l := name.data
  let lead := (l.takeWhile (fun c => c == '.')).length
  match lastIdxOf (l.drop lead) '.' with
  | none => name
  | some i => String.mk (l.take (lead + i))

/-- The MIME type a replacement file name stands for:
    `os.path.splitext(dir_entry.name)[0].replace("_", "/")`
    (src/av_gate.py:525-528). -/
def entry_mime (name : String) : String := pyReplace (splitext_root name) ("_") ("/")

/-- The `replacement_files` dictionary built at import time from the
    `replacements` directory listing: MIME type, file path.  (`scandir`
    yields paths; we keep the names, `readFile` abstracts `open`.) -/
def replacement_files_of (entries : List String) : List (String × String) :=
  entries.map (fun n => (entry_mime n, n))

/-- `get_replacement` (src/av_gate.py:531-535): look the MIME type up,
    fall back to `text/plain` when the lookup is falsy, and read the
    file; `open(None)` — both lookups failed — raises TypeError. -/
def get_replacement (replacement_files : List (String × String))
    (readFile : String → String) (mimetype : String) : Except String String :=
  let filename :=
    match lookupLast replacement_files mimetype with
    | some f => if f = "" then lookupLast replacement_files ("text/plain") else some f
    | none => lookupLast replacement_files ("text/plain")
  match filename with
  | some f => Except.ok (readFile f)
  | none => Except.error ("TypeError: open(None)")

/-- Truthiness of a configparser `get` result (`None` or the string). -/
def cfgTruthy : Option String → Bool
  | none => false
  | some s => s ≠ ""

/-- The startup validation inside `get_file_scanner`
    (src/av_gate.py:543-550): exactly one of `clamd_socket` and
    `icap_host` must be configured. -/
def get_file_scanner_check (clamd_socket icap_host : Option String) : Except String Unit :=
  if ¬ cfgTruthy clamd_socket ∧ ¬ cfgTruthy icap_host then
    Except.error ("AttributeError: Neither clamd nor icap is configured")
  else if cfgTruthy clamd_socket ∧ cfgTruthy icap_host then
    Except.error ("AttributeError: Both, clamd and icap is configured")
  else Except.ok ()

/-- The import-time actions of the module that can fail
    (src/av_gate.py:525-528 and 633): build `replacement_files` from the
    directory listing — with no validation of its contents — and run
    `get_file_scanner`.  Returns the replacement dictionary on success. -/
def startup (replacement_entries : List String)
    (clamd_socket icap_host : Option String) : Except String (List (String × String)) :=
  let replacement_files := replacement_files_of replacement_entries
  match get_file_scanner_check clamd_socket icap_host with
  | Except.error e => Except.error e
  | Except.ok _ => Except.ok replacement_files

/-! ## Data model of the MIME/XOP rewriter -/

/-- One parsed MIME part as the rewriter uses it: its raw `Content-ID`
    header (`none` when the header is absent) and its decoded body
    (`get_content` / `set_payload`).  Other headers are carried verbatim
    by the byte-level splice and need no model. -/
structure MimePart where
  contentId : Option String
  content : String
deriving DecidableEq

/-- One `DocumentResponse` element with the pieces the rewriter reads:
    its tag, its `Document/Include/@href` (`none` when the `Include`
    element or attribute is missing), and the text of `DocumentUniqueId`
    and `mimeType` (`none` when the element is missing, which trips the
    asserts of the source). -/
structure XmlDoc where
  tag : String
  href : Option String
  uniqueId : Option String
  mimeType : Option String
deriving DecidableEq

/-- A `RegistryError` element: attributes and text as created by
    `add_error_msg` / `fix_status`. -/
structure RegistryError where
  tag : String
  codeContext : String
  errorCode : String
  severity : String
  text : String
deriving DecidableEq

/-- The `RegistryResponse` element: its (namespace-qualified) tag, its
    `status` attribute and its `RegistryErrorList` child (`none` when the
    child is absent; `some []` when it is present but empty, which lxml
    treats as falsy). -/
structure RegistryResponseXml where
  tag : String
  status : Option String
  errorList : Option (List RegistryError)
deriving DecidableEq

/-- The `Body/RetrieveDocumentSetResponse` element of the SOAP part. -/
structure RetrieveDocSetXml where
  registryResponse : Option RegistryResponseXml
  docs : List XmlDoc
deriving DecidableEq

/-- Outcome of parsing the upstream multipart body with the email and
    lxml libraries (both external): the SOAP part (first part), the
    attachments (all later parts, in order), and the
    `RetrieveDocumentSetResponse` found in the SOAP payload (`none` when
    `xml.find` comes back empty). -/
structure ParsedMsg where
  soapPart : MimePart
  attachments : List MimePart
  rdsr : Option RetrieveDocSetXml
deriving DecidableEq

/-- The upstream response as the rewriter reads it: the `Content-Type`
    header and the raw body bytes. -/
structure UpstreamResponse where
  contentType : String
  content : String
deriving DecidableEq

/-- The mutable state `handle_attachment` works on: the payload of `msg`
    (reset to the SOAP part before the loop), the `DocumentResponse`
    children of `response_xml`, and the `RegistryErrorList` contents. -/
structure AvMutState where
  msgParts : List MimePart
  docs : List XmlDoc
  errlist : List RegistryError
deriving DecidableEq

/-- Observable result of a rewrite: the emitted payload plus the final
    state of the mutated SOAP XML and MIME message (in the source these
    persist in the parsed objects; returning them makes them provable). -/
structure RewriteOut where
  payload : String
  soapXmlDocs : List XmlDoc
  status : Option String
  errlist : List RegistryError
  msgParts : List MimePart
deriving DecidableEq

/-- Models CPython/lxml `str(element)` for an `lxml.etree._Element`: the
    object repr `<Element tag at 0xADDR>`.  The address is arbitrary; no
    result below depends on it beyond the string not being the
    `DocumentUniqueId` text. -/
def lxml_element_str (tag : String) : String :=
  "<Element " ++ tag ++ " at 0x7f2a81c3b9c0>"

/-- `add_error_msg` (src/av_gate.py:439-453).  NOTE: the call site passes
    the whole `DocumentResponse` element as `document_id`, so the
    f-string formats the element object, not the unique id text; the
    model keeps the parameter name of the source and that behavior. -/
def add_error_msg (document_id : XmlDoc) (xml_errlist : List RegistryError)
    (xml_ns : String) : List RegistryError :=
  let err_text := "Document was detected as malware for uniqueId \x27"
      ++ lxml_element_str document_id.tag ++ "\x27."
  xml_errlist ++ [{ tag := xml_ns ++ "RegistryError",
                    codeContext := err_text,
                    errorCode := "XDSDocumentUniqueIdError",
                    severity := "urn:oasis:names:tc:ebxml-regrep:ErrorSeverityType:Error",
                    text := err_text }]

/-- `fix_status` (src/av_gate.py:456-474): the new `status` attribute of
    `RegistryResponse` and the new `RegistryErrorList` contents, from the
    error list and the payload of `msg`. -/
def fix_status (xml_errlist : List RegistryError) (xml_ns : String)
    (msg : List MimePart) : String × List RegistryError :=
  if msg.length > 1 then
    ("urn:ihe:iti:2007:ResponseStatusType:PartialSuccess", xml_errlist)
  else
    ("urn:oasis:names:tc:ebxml-regrep:ResponseStatusType:Failure",
     xml_errlist ++ [{ tag := xml_ns ++ "RegistryError",
                       codeContext := "No documents found for unique ids in request",
                       errorCode := "XDSRegistryMetadataError",
                       severity := "urn:oasis:names:tc:ebxml-regrep:ErrorSeverityType:Error",
                       text := "No documents found for unique ids in request" }])

/-- `handle_attachment` (src/av_gate.py:368-397).  A missing Content-ID
    header makes `extract_id(None)` raise; a Content-ID absent from
    `xml_documents` raises KeyError; the asserts of the source on
    `DocumentUniqueId` and `mimeType` raise AssertionError. -/
def handle_attachment (remove_malicious : Bool)
    (replacement_files : List (String × String)) (readFile : String → String)
    (virus_atts : List String) (xml_ns : String)
    (xml_documents : List (String × XmlDoc))
    (st : AvMutState) (att : MimePart) : Except String AvMutState :=
  match att.contentId with
  | none => Except.error ("TypeError: Content-ID header missing")
  | some raw =>
    let content_id := extract_id raw
    match lookupLast xml_documents content_id with
    | none => Except.error ("KeyError: " ++ content_id)
    | some document_xml =>
      match document_xml.uniqueId with
      | none => Except.error ("AssertionError: DocumentUniqueId")
      | some _document_id =>
        match document_xml.mimeType with
        | none => Except.error ("AssertionError: mimeType")
        | some mimetype =>
          if content_id ∈ virus_atts then
            if remove_malicious then
              Except.ok { st with
                errlist := add_error_msg document_xml st.errlist xml_ns,
                docs := st.docs.erase document_xml }
            else
              match get_replacement replacement_files readFile mimetype with
              | Except.error e => Except.error e
              | Except.ok replacement =>
                Except.ok { st with
                  msgParts := st.msgParts ++ [{ att with content := replacement }] }
          else
            Except.ok { st with msgParts := st.msgParts ++ [att] }

/-- The PNG magic bytes `89 50 4E 47 0D 0A 1A 0A`. -/
def pngMagic : String := String.mk ['\x89', 'P', 'N', 'G', '\x0d', '\x0a', '\x1a', '\x0a']

/-- The PDF magic bytes `25 50 44 46`. -/
def pdfMagic : String := "%PDF"

/-- `get_malicious_content_ids` (src/av_gate.py:400-423): normalized
    Content-IDs of every attachment whose scan is not `OK` or that the
    PNG/PDF test overrides force to be treated as malicious.  The
    generator is consumed by `list(...)` before any mutation. -/
def get_malicious_content_ids (all_png_malicious all_pdf_malicious : Bool)
    (scan_file : String → Except String (String × Option String))
    (atts : List MimePart) : Except String (List String) :=
  atts.foldlM (fun acc att =>
    match scan_file att.content with
    | Except.error e => Except.error e
    | Except.ok scan_res =>
      match att.contentId with
      | none => Except.error ("TypeError: Content-ID header missing")
      | some raw =>
        let content_id := extract_id raw
        let test_malicous := (all_png_malicious && pyStartsWith att.content pngMagic)
          || (all_pdf_malicious && pyStartsWith att.content pdfMagic)
        if scan_res.1 ≠ "OK" ∨ test_malicous = true then Except.ok (acc ++ [content_id])
        else Except.ok acc) []

/-- The greedy `re.search("{.*}", tag)` of src/av_gate.py:326-328: from
    the first `{` to the last `}`. -/
def extract_ns (tag : String) : Option String :=
  let l := tag.data
  match l.findIdx? (fun c => c == '{'), lastIdxOf l '}' with
  | some i, some j => if i < j then some (String.mk ((l.drop i).take (j - i + 1))) else none
  | _, _ => none

/-- The `xml_documents` dictionary of src/av_gate.py:336-344: normalized
    `Include/@href` mapped to its `DocumentResponse`; a missing `Include`
    or a falsy `href` trips the asserts. -/
def xml_documents_map (docs : List XmlDoc) : Except String (List (String × XmlDoc)) :=
  docs.foldlM (fun acc doc =>
    match doc.href with
    | none => Except.error ("AssertionError: Include")
    | some href =>
      if href = "" then Except.error ("AssertionError: href")
      else Except.ok (acc ++ [(extract_id href, doc)])) []

/-- `build_payload` (src/av_gate.py:477-515): split the original bytes at
    the verbatim boundary, replace the body of segments whose Content-ID
    is infected (and, in remove mode, of the `root.message` segment) with
    the current content of the corresponding part, emit everything else
    verbatim, and re-join with the same boundary.  A segment whose
    Content-ID finds no part is dropped (only logged). -/
def build_payload (remove_malicious : Bool) (msgParts : List MimePart)
    (virus_atts : List String) (res : UpstreamResponse) : Except String String :=
  match boundary_param res.contentType with
  | none => Except.error ("AssertionError: boundary")
  | some b =>
    let boundary := "\r\n--" ++ b
    let payload := (pySplit res.content boundary).filterMap (fun part =>
      match get_content_id part with
      | some content_id =>
        if content_id ∈ virus_atts ∨ (content_id = "root.message" ∧ remove_malicious = true) then
          match msgParts.find? (fun a => content_id == extract_id (a.contentId.getD (""))) with
          | some att => some ((pySplit part ("\r\n\r\n")).headD ("") ++ "\r\n\r\n" ++ att.content)
          | none => none
        else some part
      | none => some part)
    Except.ok (joinSep boundary payload)

/-- The `RegistryErrorList` the rewriter works on
    (src/av_gate.py:330-334): the existing element when it is truthy
    (lxml: has children), otherwise a freshly created empty one. -/
def errlistInit (xml_resp : RegistryResponseXml) : List RegistryError :=
  match xml_resp.errorList with
  | some l => if l.isEmpty then [] else l
  | none => []

/-- Whether an `Except` value is an error (used to state that a request
    fails without naming the specific exception). -/
def isError {α : Type} : Except String α → Bool
  | Except.error _ => true
  | Except.ok _ => false

/-- `run_antivirus` (src/av_gate.py:296-365).  `scan_file` is the
    configured backend, `et_tostring` stands for `ET.tostring` applied to
    the mutated SOAP tree (its value is only ever spliced into the
    `root.message` segment in remove mode), and `pm` is the parse of
    `res.content` by the email/lxml libraries.  Returns `none` when no
    rewrite is warranted, otherwise the rewritten payload together with
    the final state of the mutated XML and message. -/
def run_antivirus (remove_malicious all_png_malicious all_pdf_malicious : Bool)
    (scan_file : String → Except String (String × Option String))
    (replacement_files : List (String × String)) (readFile : String → String)
    (et_tostring : List XmlDoc → Option String → List RegistryError → String)
    (res : UpstreamResponse) (pm : ParsedMsg) : Except String (Option RewriteOut) :=
  if pyStartsWith (pyLower res.contentType) ("multipart") = false then Except.ok none
  else
    match pm.rdsr with
    | none => Except.ok none
    | some response_xml =>
      match get_malicious_content_ids all_png_malicious all_pdf_malicious scan_file pm.attachments with
      | Except.error e => Except.error e
      | Except.ok virus_atts =>
        if virus_atts = [] then Except.ok none
        else
          match response_xml.registryResponse with
          | none => Except.error ("AssertionError: RegistryResponse")
          | some xml_resp =>
            match extract_ns xml_resp.tag with
            | none => Except.error ("AssertionError: namespace")
            | some xml_ns =>
              let errlist0 := errlistInit xml_resp
              match xml_documents_map response_xml.docs with
              | Except.error e => Except.error e
              | Except.ok xml_documents =>
                match pm.attachments.foldlM
                    (handle_attachment remove_malicious replacement_files readFile
                      virus_atts xml_ns xml_documents)
                    { msgParts := [pm.soapPart], docs := response_xml.docs, errlist := errlist0 } with
                | Except.error e => Except.error e
                | Except.ok stF =>
                  let statusErr :=
                    if remove_malicious then
                      let se := fix_status stF.errlist xml_ns stF.msgParts
                      (some se.1, se.2)
                    else (xml_resp.status, stF.errlist)
                  let finalParts :=
                    if remove_malicious then
                      match stF.msgParts with
                      | [] => []
                      | soap :: rest =>
                        { soap with content := et_tostring stF.docs statusErr.1 statusErr.2 } :: rest
                    else stF.msgParts
                  match build_payload remove_malicious finalParts virus_atts res with
                  | Except.error e => Except.error e
                  | Except.ok payload =>
                    Except.ok (some { payload := payload, soapXmlDocs := stF.docs,
                                      status := statusErr.1, errlist := statusErr.2,
                                      msgParts := finalParts })

/-- The literal EICAR test signature asserted against in `phr_service`. -/
def eicar_signature : String := "$EICAR-STANDARD-ANTIVIRUS-TEST-FILE!$H+H*"

/-- `phr_service` (src/av_gate.py:165-181): run the rewriter, fall back
    to the upstream body when it produced nothing (or an empty payload —
    `if not data`), and assert the EICAR signature is absent before the
    response is built. -/
def phr_service (remove_malicious all_png_malicious all_pdf_malicious : Bool)
    (scan_file : String → Except String (String × Option String))
    (replacement_files : List (String × String)) (readFile : String → String)
    (et_tostring : List XmlDoc → Option String → List RegistryError → String)
    (res : UpstreamResponse) (pm : ParsedMsg) : Except String String :=
  match run_antivirus remove_malicious all_png_malicious all_pdf_malicious
      scan_file replacement_files readFile et_tostring res pm with
  | Except.error e => Except.error e
  | Except.ok d =>
    let data := match d with
      | some out => if out.payload = "" then res.content else out.payload
      | none => res.content
    if strContains data eicar_signature then
      Except.error ("AssertionError: found EICAR signature")
    else Except.ok data

/-! ## Derived forms used in theorem statements -/

/-- The replacement bytes spliced in for an infected Content-ID `c`: the
    `get_replacement` result for the `mimeType` of the `DocumentResponse`
    joined to `c` (defaulting to `""` on paths the theorems exclude). -/
def replacementFor (replacement_files : List (String × String))
    (readFile : String → String) (xml_documents : List (String × XmlDoc))
    (c : String) : String :=
  match lookupLast xml_documents c with
  | none => ""
  | some d =>
    match d.mimeType with
    | none => ""
    | some m =>
      match get_replacement replacement_files readFile m with
      | Except.ok r => r
      | Except.error _ => ""

/-- What a replace-mode rewrite emits for one raw segment of the split
    body: an infected segment keeps its header bytes and gets the
    replacement body; everything else is emitted verbatim. -/
def c2EmitSeg (replacement_files : List (String × String))
    (readFile : String → String) (xml_documents : List (String × XmlDoc))
    (virus_atts : List String) (part : String) : String :=
  match get_content_id part with
  | some c =>
    if c ∈ virus_atts then
      (pySplit part ("\r\n\r\n")).headD ("") ++ "\r\n\r\n"
        ++ replacementFor replacement_files readFile xml_documents c
    else part
  | none => part

/-- What `handle_attachment` does to one attachment in replace mode:
    infected parts get the replacement content, clean parts are kept. -/
def replaceModeEmit (replacement_files : List (String × String))
    (readFile : String → String) (xml_documents : List (String × XmlDoc))
    (virus_atts : List String) (att : MimePart) : MimePart :=
  if extract_id (att.contentId.getD ("")) ∈ virus_atts then
    { att with content := (replacementFor replacement_files readFile xml_documents
        (extract_id (att.contentId.getD ("")))) }
  else att

/-! ## Concrete fixtures for the witness theorems -/

/-- A scanner stub: `FOUND` for the body `"EVIL"`, `OK` otherwise. -/
def wScan (c : String) : Except String (String × Option String) :=
  if c = "EVIL" then Except.ok ("FOUND", some ("Eicar-Test")) else Except.ok ("OK", none)

/-- A replacement directory with a PDF entry and the text/plain fallback. -/
def wRf : List (String × String) :=
  [("application/pdf", "application_pdf.pdf"), ("text/plain", "text_plain.txt")]

/-- File contents for `wRf`. -/
def wRead (f : String) : String :=
  if f = "application_pdf.pdf" then ("PDFREPL") else ("TXTREPL")

/-- A serializer stub for the SOAP tree (never inspected in replace mode). -/
def wEt (_docs : List XmlDoc) (_status : Option String)
    (_errs : List RegistryError) : String := "SERIALIZEDSOAP"

/-- A `DocumentResponse` for Content-ID `doc1`. -/
def wDoc1 : XmlDoc :=
  { tag := "{ns1}DocumentResponse", href := some ("cid:doc1@x"),
    uniqueId := some ("doc1"), mimeType := some ("application/pdf") }

/-- A `RegistryResponse` with no `RegistryErrorList`. -/
def wRr : RegistryResponseXml :=
  { tag := "{ns1}RegistryResponse", status := some ("urn:success"), errorList := none }

/-- The `RetrieveDocumentSetResponse` holding `wDoc1`. -/
def wRx : RetrieveDocSetXml := { registryResponse := some wRr, docs := [wDoc1] }

/-- The SOAP part of the fixture message. -/
def wSoap : MimePart := { contentId := some ("<root.message@x>"), content := "SOAPXML" }

/-- The infected attachment of the fixture message. -/
def wAtt1 : MimePart := { contentId := some ("<doc1@x>"), content := "EVIL" }

/-- A clean attachment whose Content-ID has no `DocumentResponse`. -/
def wAttClean : MimePart := { contentId := some ("<doc2@x>"), content := "GOOD" }

/-- Parse of the fixture response: SOAP part plus one infected attachment. -/
def wPm : ParsedMsg := { soapPart := wSoap, attachments := [wAtt1], rdsr := some wRx }

/-- Raw bytes of the SOAP segment in the fixture body. -/
def wSeg1 : String := "\r\nContent-ID: <root.message@x>\r\n\r\nSOAPXML"

/-- Raw bytes of the infected segment in the fixture body. -/
def wSeg2 : String := "\r\nContent-ID: <doc1@x>\r\n\r\nEVIL"

/-- The fixture upstream response (boundary `BND`). -/
def wRes : UpstreamResponse :=
  { contentType := "multipart/related; boundary=\"BND\"",
    content := "pre" ++ "\r\n--BND" ++ wSeg1 ++ "\r\n--BND" ++ wSeg2 ++ "\r\n--BND--" }

/-- The `xml_documents` dictionary of the fixture. -/
def wDm : List (String × XmlDoc) := [("doc1", wDoc1)]

/-- The infected Content-ID set of the fixture. -/
def wV : List String := ["doc1"]

/-- Parse of the C9 fixture: one infected and one clean attachment, the
    clean one lacking a `DocumentResponse`. -/
def wPm9 : ParsedMsg :=
  { soapPart := wSoap, attachments := [wAtt1, wAttClean], rdsr := some wRx }

/-- A non-multipart upstream response. -/
def wResPlain : UpstreamResponse := { contentType := "text/xml", content := "hello" }

/-- A non-multipart upstream response whose body carries EICAR. -/
def wResEicar : UpstreamResponse :=
  { contentType := "text/xml", content := "abc" ++ eicar_signature ++ "def" }

/-- A parse with no attachments and no `RetrieveDocumentSetResponse`. -/
def wPmEmpty : ParsedMsg := { soapPart := wSoap, attachments := [], rdsr := none }

/-- ICAP first block of the fixture exchange. -/
def wIcapFb : String :=
  "ICAP/1.0 200 OK\r\nX-Infection-Found: Type=0; Resolution=2; Threat=EICAR-Test;"

/-- ICAP second block of the fixture exchange. -/
def wIcapSb : String := "HTTP/1.0 403 Forbidden\r\nEncapsulated"

/-- The raw ICAP response of the fixture exchange. -/
def wIcapRcv : String := wIcapFb ++ "\r\n\r\n" ++ wIcapSb

/-- The mutation state before `handle_attachment` in the C3 scenario. -/
def wSt3 : AvMutState := { msgParts := [wSoap], docs := [wDoc1], errlist := [] }

/-- The buggy error text `add_error_msg` actually produces for `wDoc1`:
    the f-string renders the element object, not the unique id. -/
def wBugText : String :=
  "Document was detected as malware for uniqueId \x27"
    ++ lxml_element_str ("{ns1}DocumentResponse") ++ "\x27."

/-- The `RegistryError` the C3 scenario appends. -/
def wErr3 : RegistryError :=
  { tag := "{ns1}RegistryError", codeContext := wBugText,
    errorCode := "XDSDocumentUniqueIdError",
    severity := "urn:oasis:names:tc:ebxml-regrep:ErrorSeverityType:Error",
    text := wBugText }

/-- Expected payload of the replace-mode fixture rewrite. -/
def wPayload : String :=
  "pre" ++ "\r\n--BND" ++ wSeg1 ++ "\r\n--BND"
    ++ "\r\nContent-ID: <doc1@x>\r\n\r\nPDFREPL" ++ "\r\n--BND--"

/-- Expected full rewrite result of the replace-mode fixture. -/
def wOut : RewriteOut :=
  { payload := wPayload, soapXmlDocs := [wDoc1], status := some ("urn:success"),
    errlist := [], msgParts := [wSoap, { wAtt1 with content := "PDFREPL" }] }

/-! ## Helper lemmas -/

theorem except_bind_ok {α β : Type} (a : α) (f : α → Except String β) :
    (Except.ok a >>= f) = f a := rfl

theorem except_bind_error {α β : Type} (e : String) (f : α → Except String β) :
    ((Except.error e : Except String α) >>= f) = Except.error e := rfl

theorem filterMap_eq_map_of_mem {α β : Type} {l : List α} {g : α → Option β} {f : α → β}
    (h : ∀ a ∈ l, g a = some (f a)) : l.filterMap g = l.map f := by
  induction l with
  | nil => rfl
  | cons x xs ih =>
    simp only [List.filterMap_cons, h x (List.mem_cons_self x xs), List.map_cons]
    rw [ih (fun a ha => h a (List.mem_cons_of_mem x ha))]

theorem find?_map_eq {α β : Type} (f : α → β) (p : β → Bool) (l : List α) :
    (l.map f).find? p = (l.find? (fun a => p (f a))).map f := by
  induction l with
  | nil => rfl
  | cons x xs ih =>
    simp only [List.map_cons, List.find?_cons]
    cases hp : p (f x) <;> simp [hp, ih]

theorem foldlM_error_of_mem {α σ : Type} (f : σ → α → Except String σ)
    (l : List α) (a : α) (ha : a ∈ l)
    (hf : ∀ st, ∃ e, f st a = Except.error e) :
    ∀ st, ∃ e, List.foldlM f st l = Except.error e := by
  induction l with
  | nil => cases ha
  | cons x xs ih =>
    intro st
    rw [List.foldlM_cons]
    rcases List.mem_cons.mp ha with rfl | hmem
    · obtain ⟨e, he⟩ := hf st
      rw [he]
      exact ⟨e, rfl⟩
    · cases hx : f st x with
      | error e => exact ⟨e, rfl⟩
      | ok s => exact ih hmem s

theorem get_content_id_aux_is_extract :
    ∀ (l : List Char) (s : String), get_content_id_aux l = some s →
      ∃ raw, s = extract_id raw := by
  intro l
  induction l with
  | nil => intro s h; cases h
  | cons c rest ih =>
    intro s h
    unfold get_content_id_aux at h
    by_cases hp : lowerPrefixMatch (c :: rest) contentIdPat = true
    · rw [if_pos hp] at h
      cases hcap : capUntilCRLF ((c :: rest).drop contentIdPat.length) with
      | some cap =>
        rw [hcap] at h
        injection h with h'
        exact ⟨String.mk cap, h'.symm⟩
      | none =>
        rw [hcap] at h
        exact ih s h
    · rw [if_neg hp] at h
      exact ih s h

/-- Shared helper: the three situations in which `run_antivirus` returns
    no new body (non-multipart content type, no
    `RetrieveDocumentSetResponse`, empty infected set). -/
theorem run_antivirus_none_of_norewrite
    (rm png pdf : Bool) (scan : String → Except String (String × Option String))
    (rf : List (String × String)) (readFile : String → String)
    (et : List XmlDoc → Option String → List RegistryError → String)
    (res : UpstreamResponse) (pm : ParsedMsg)
    (h : pyStartsWith (pyLower res.contentType) ("multipart") = false
       ∨ pm.rdsr = none
       ∨ get_malicious_content_ids png pdf scan pm.attachments = Except.ok []) :
    run_antivirus rm png pdf scan rf readFile et res pm = Except.ok none := by
  unfold run_antivirus
  rcases h with h | h | h
  · simp [h]
  · cases hm : pyStartsWith (pyLower res.contentType) ("multipart") <;> simp [h]
  · cases hm : pyStartsWith (pyLower res.contentType) ("multipart")
    · simp
    · cases hr : pm.rdsr
      · simp
      · simp [h]

/-! ## The claims -/

/-- C1: the rewriter is an identity whenever no rewrite is warranted —
    for a multipart response without a `RetrieveDocumentSetResponse`, and
    for any response whose scan pass finds nothing (in particular a
    previously rewritten body re-scanned as all OK, so the rewriter is
    idempotent), `run_antivirus` produces no new body and `phr_service`
    forwards the upstream bytes unchanged. -/
theorem c1_identity_when_no_rewrite
    (rm png pdf : Bool) (scan : String → Except String (String × Option String))
    (rf : List (String × String)) (readFile : String → String)
    (et : List XmlDoc → Option String → List RegistryError → String)
    (res : UpstreamResponse) (pm : ParsedMsg)
    (h : pyStartsWith (pyLower res.contentType) ("multipart") = false
       ∨ pm.rdsr = none
       ∨ get_malicious_content_ids png pdf scan pm.attachments = Except.ok []) :
    run_antivirus rm png pdf scan rf readFile et res pm = Except.ok none
    ∧ (strContains res.content eicar_signature = false →
        phr_service rm png pdf scan rf readFile et res pm = Except.ok res.content) := by
  have hr := run_antivirus_none_of_norewrite rm png pdf scan rf readFile et res pm h
  refine ⟨hr, fun he => ?_⟩
  unfold phr_service
  rw [hr]
  simp [he]

/-- Witness for C1 at a concrete non-multipart response. -/
theorem c1_witness :
    run_antivirus false false false wScan wRf wRead wEt wResPlain wPmEmpty = Except.ok none
    ∧ phr_service false false false wScan wRf wRead wEt wResPlain wPmEmpty
        = Except.ok ("hello") := by
  have h := c1_identity_when_no_rewrite false false false wScan wRf wRead wEt
    wResPlain wPmEmpty (Or.inl (by decide))
  exact ⟨h.1, (h.2 (by decide)).trans (by decide)⟩

/-- C10: `phr_service` asserts the absence of the EICAR signature even
    when no rewrite occurred (non-multipart response, missing
    `RetrieveDocumentSetResponse`, or all scans OK): an upstream body
    containing the EICAR string fails instead of being forwarded. -/
theorem c10_eicar_checked_without_rewrite
    (rm png pdf : Bool) (scan : String → Except String (String × Option String))
    (rf : List (String × String)) (readFile : String → String)
    (et : List XmlDoc → Option String → List RegistryError → String)
    (res : UpstreamResponse) (pm : ParsedMsg)
    (h : pyStartsWith (pyLower res.contentType) ("multipart") = false
       ∨ pm.rdsr = none
       ∨ get_malicious_content_ids png pdf scan pm.attachments = Except.ok [])
    (he : strContains res.content eicar_signature = true) :
    phr_service rm png pdf scan rf readFile et res pm
      = Except.error ("AssertionError: found EICAR signature") := by
  have hr := run_antivirus_none_of_norewrite rm png pdf scan rf readFile et res pm h
  unfold phr_service
  rw [hr]
  simp [he]

/-- Witness for C10: a non-multipart upstream body carrying EICAR. -/
theorem c10_witness :
    phr_service false false false wScan wRf wRead wEt wResEicar wPmEmpty
      = Except.error ("AssertionError: found EICAR signature") :=
  c10_eicar_checked_without_rewrite false false false wScan wRf wRead wEt
    wResEicar wPmEmpty (Or.inl (by decide)) (by decide)

/-- C3: in remove mode `handle_attachment` removes the infected
    attachment from the envelope (it is not re-attached), removes its
    `DocumentResponse` from the SOAP XML, and appends a `RegistryError`
    with the claimed errorCode and severity — but the `codeContext` it
    writes renders the `DocumentResponse` element object (the call site
    passes `document_xml` where `add_error_msg` expects `document_id`),
    not the `DocumentUniqueId` text `doc1` the claim and the spec
    state. -/
theorem c3_remove_mode_mutation :
    handle_attachment true wRf wRead wV ("{ns1}") wDm wSt3 wAtt1
      = Except.ok { msgParts := [wSoap], docs := [], errlist := [wErr3] }
    ∧ wErr3.errorCode = "XDSDocumentUniqueIdError"
    ∧ wErr3.severity = "urn:oasis:names:tc:ebxml-regrep:ErrorSeverityType:Error"
    ∧ wDoc1.uniqueId = some ("doc1")
    ∧ wErr3.codeContext
        ≠ "Document was detected as malware for uniqueId \x27doc1\x27." := by
  refine ⟨by decide, rfl, rfl, rfl, by decide⟩

/-- C4: `fix_status` sets the `RegistryResponse` status to
    `PartialSuccess` exactly when more than one part (the SOAP part plus
    at least one attachment) remains in the envelope; otherwise it sets
    `Failure` and appends exactly one `XDSRegistryMetadataError`
    RegistryError with the claimed codeContext. -/
theorem c4_fix_status_overall
    (errl : List RegistryError) (ns : String) (msg : List MimePart) :
    ((fix_status errl ns msg).1 = "urn:ihe:iti:2007:ResponseStatusType:PartialSuccess"
        ↔ 1 < msg.length)
    ∧ (1 < msg.length → (fix_status errl ns msg).2 = errl)
    ∧ (¬ 1 < msg.length → fix_status errl ns msg
        = ("urn:oasis:names:tc:ebxml-regrep:ResponseStatusType:Failure",
           errl ++ [{ tag := ns ++ "RegistryError",
                      codeContext := "No documents found for unique ids in request",
                      errorCode := "XDSRegistryMetadataError",
                      severity := "urn:oasis:names:tc:ebxml-regrep:ErrorSeverityType:Error",
                      text := "No documents found for unique ids in request" }])) := by
  by_cases h : 1 < msg.length
  · simp [fix_status, h]
  · have hn : ¬ msg.length > 1 := by omega
    refine ⟨?_, fun hc => absurd hc h, fun _ => ?_⟩
    · unfold fix_status
      rw [if_neg hn]
      constructor
      · intro hs; simp at hs
      · intro hc; exact absurd hc h
    · unfold fix_status
      rw [if_neg hn]

/-- Witness for C4: one surviving attachment gives PartialSuccess with
    no extra error; an empty envelope gives Failure with the summary
    error appended. -/
theorem c4_witness :
    (fix_status ([]) ("{ns1}") ([wSoap, wAtt1])).1
        = "urn:ihe:iti:2007:ResponseStatusType:PartialSuccess"
    ∧ fix_status ([]) ("{ns1}") ([wSoap])
        = ("urn:oasis:names:tc:ebxml-regrep:ResponseStatusType:Failure",
           [{ tag := "{ns1}RegistryError",
              codeContext := "No documents found for unique ids in request",
              errorCode := "XDSRegistryMetadataError",
              severity := "urn:oasis:names:tc:ebxml-regrep:ErrorSeverityType:Error",
              text := "No documents found for unique ids in request" }]) := by
  constructor
  · exact (c4_fix_status_overall ([]) ("{ns1}") ([wSoap, wAtt1])).1.mpr (by decide)
  · exact ((c4_fix_status_overall ([]) ("{ns1}") ([wSoap])).2.2 (by decide)).trans (by decide)

/-- C5: `extract_id` is exactly the composition URL-decode, strip
    `cid:`, strip angle brackets, truncate at the first `@`, in that
    order; the two quoted inputs both normalize to `abc`; and the same
    function is the join key on the XML side (`xml_documents` is keyed by
    `extract_id` of `Include/@href`) and on the MIME side
    (`get_content_id` yields `extract_id` of the raw header value). -/
theorem c5_extract_id_normalization :
    (∀ s : String, extract_id s
        = truncate_at_amp (strip_angle (strip_cid_scheme (unquote s))))
    ∧ extract_id ("cid:%3Cabc@d%3E") = "abc"
    ∧ extract_id ("<abc@d>") = "abc"
    ∧ (∀ (d : XmlDoc) (h : String), d.href = some h → h ≠ "" →
        xml_documents_map ([d]) = Except.ok ([(extract_id h, d)]))
    ∧ (∀ (part : String) (c : String), get_content_id part = some c →
        ∃ raw, c = extract_id raw) := by
  refine ⟨fun s => rfl, by decide, by decide, ?_, ?_⟩
  · intro d h hd hne
    unfold xml_documents_map
    rw [List.foldlM_cons]
    simp [hd, hne, List.foldlM_nil]
  · intro part c h
    exact get_content_id_aux_is_extract part.data c h

/-- Witness for C5: the XML-side key of the fixture document is the
    normalized `href`, computed with the same `extract_id` the MIME side
    uses. -/
theorem c5_witness :
    xml_documents_map ([wDoc1]) = Except.ok ([("doc1", wDoc1)]) := by
  have h := (c5_extract_id_normalization).2.2.2.1 wDoc1 ("cid:doc1@x") rfl (by decide)
  exact h.trans (by decide)

/-- C6: the ICAP backend maps responses to verdicts: the 204 status line
    yields OK; `ICAP/1.0 200 OK` with encapsulated `HTTP/1.0 403
    Forbidden` yields FOUND, with the threat name captured from the
    `Threat=...;` parameter of the `X-Infection-Found` header when present and
    `unknown` otherwise; `ICAP/1.0 200 OK` with any other encapsulated
    status yields OK; any other ICAP status line raises a scan error. -/
theorem c6_icap_verdict_mapping (rcv fb sb : String)
    (hsplit : pySplitFirst (pyTake rcv 2048) ("\r\n\r\n") = some (fb, sb)) :
    (pyPartitionFirst fb ("\r\n") = "ICAP/1.0 204 No modifications needed" →
       scan_file_icap rcv = Except.ok ("OK", none))
    ∧ (pyPartitionFirst fb ("\r\n") = "ICAP/1.0 200 OK" →
        pyPartitionFirst sb ("\r\n") = "HTTP/1.0 403 Forbidden" →
        scan_file_icap rcv = Except.ok ("FOUND", some ((icap_threat fb).getD ("unknown"))))
    ∧ (pyPartitionFirst fb ("\r\n") = "ICAP/1.0 200 OK" →
        pyPartitionFirst sb ("\r\n") ≠ "HTTP/1.0 403 Forbidden" →
        scan_file_icap rcv = Except.ok ("OK", none))
    ∧ (pyPartitionFirst fb ("\r\n") ≠ "ICAP/1.0 204 No modifications needed" →
        pyPartitionFirst fb ("\r\n") ≠ "ICAP/1.0 200 OK" →
        scan_file_icap rcv = Except.error ("EnvironmentError: ICAP not OK")) := by
  unfold scan_file_icap
  simp only [hsplit]
  refine ⟨fun h1 => ?_, fun h1 h2 => ?_, fun h1 h2 => ?_, fun h1 h2 => ?_⟩
  · simp [h1]
  · simp only [h1, h2]
    simp
    cases ht : icap_threat fb <;> simp [ht]
  · simp [h1, h2]
  · simp [h1, h2]

/-- Witness for C6: a full 200/403 exchange with an
    `X-Infection-Found` header naming the threat. -/
theorem c6_witness :
    scan_file_icap wIcapRcv = Except.ok ("FOUND", some ("EICAR-Test")) := by
  have h := (c6_icap_verdict_mapping wIcapRcv wIcapFb wIcapSb (by decide)).2.1
    (by decide) (by decide)
  exact h.trans (by decide)

/-- C7 (corrected): the router key is built from the trusted real-IP
    header and a port taken from the Host header — but the port is the
    substring between the first and second `:` (`host.split(":")[1]`),
    not after the last `:` as the claim states.  At `Host =
    konnektor:1:2` with section `10.0.0.1:2` present (the key the claim names),
    the code answers 503 instead of resolving it. -/
theorem c7_counterexample :
    get_client_config (some ("10.0.0.1")) ("konnektor:1:2") (["10.0.0.1:2"])
        = Except.error 503
    ∧ "10.0.0.1" ++ ":" ++ ((pySplit ("konnektor:1:2") (":")).getLast?.getD (""))
        = "10.0.0.1:2" := by decide

/-- C7 (amended): resolution uses the key `ip:port` with the port taken
    after the first `:` of the Host header (default 443 with no colon);
    an exact section wins, otherwise the wildcard section for the port,
    otherwise the request is aborted with 503 before any upstream
    contact. -/
theorem c7_router_resolution (ip host port : String) (sections : List String)
    (hport : port = (if host.data.contains ':'
        then (pySplit host (":")).getD 1 ("") else ("443"))) :
    (ip ++ ":" ++ port ∈ sections →
      get_client_config (some ip) host sections = Except.ok (ip ++ ":" ++ port))
    ∧ (ip ++ ":" ++ port ∉ sections → ("*:" ++ port) ∈ sections →
      get_client_config (some ip) host sections = Except.ok ("*:" ++ port))
    ∧ (ip ++ ":" ++ port ∉ sections → ("*:" ++ port) ∉ sections →
      get_client_config (some ip) host sections = Except.error 503) := by
  subst hport
  unfold get_client_config
  dsimp only
  refine ⟨fun h1 => ?_, fun h1 h2 => ?_, fun h1 h2 => ?_⟩
  · rw [if_pos h1]
  · rw [if_neg h1, if_pos h2]
  · rw [if_neg h1, if_neg h2]

/-- Witness for C7 (amended): with two colons in Host, the effective
    port is the substring after the first colon. -/
theorem c7_witness :
    get_client_config (some ("10.0.0.1")) ("konnektor:1:2") (["10.0.0.1:1"])
      = Except.ok ("10.0.0.1:1") := by
  have h := (c7_router_resolution ("10.0.0.1") ("konnektor:1:2") ("1")
    (["10.0.0.1:1"]) (by decide)).1 (by decide)
  exact h.trans (by decide)

/-- C8 (corrected): nothing at startup validates the replacements
    directory — with no `text/plain` entry and a valid scanner
    configuration, startup succeeds, and a later lookup for a MIME type
    absent from the store fails at request time (`open(None)`), contrary
    to the claimed startup fatal. -/
theorem c8_counterexample :
    startup (["application_pdf.pdf"]) (some ("/run/clamd.sock")) none
        = Except.ok ([("application/pdf", "application_pdf.pdf")])
    ∧ get_replacement ([("application/pdf", "application_pdf.pdf")])
        (fun _ => "X") ("text/xml")
        = Except.error ("TypeError: open(None)") := by decide

/-- C8 (amended): a lookup for a MIME type absent from the store returns
    the `text/plain` entry when one exists and fails only at request
    time when it does not; startup succeeds for any replacements
    directory whenever the scanner configuration is valid (there is no
    startup check of the store). -/
theorem c8_fallback_no_startup_check (files : List (String × String))
    (readFile : String → String) (m : String)
    (hm : lookupLast files m = none) :
    get_replacement files readFile m
      = (match lookupLast files ("text/plain") with
         | some f => Except.ok (readFile f)
         | none => Except.error ("TypeError: open(None)"))
    ∧ ∀ (entries : List String) (clamd icap : Option String),
        get_file_scanner_check clamd icap = Except.ok () →
        startup entries clamd icap = Except.ok (replacement_files_of entries) := by
  constructor
  · unfold get_replacement
    rw [hm]
  · intro entries clamd icap h
    unfold startup
    rw [h]

/-- Witness for C8 (amended): a store with only the fallback serves any
    MIME type with it, and startup accepts a fallback-free store. -/
theorem c8_witness :
    get_replacement ([("text/plain", "t.txt")]) (fun _ => "TXT") ("application/xml")
        = Except.ok ("TXT")
    ∧ startup ([]) (none) (some ("icap.local"))
        = Except.ok ([]) := by
  have h := c8_fallback_no_startup_check ([("text/plain", "t.txt")])
    (fun _ => "TXT") ("application/xml") (by decide)
  exact ⟨h.1.trans (by decide), h.2 ([]) none (some ("icap.local")) (by decide)⟩

theorem replaceModeEmit_contentId (rf : List (String × String))
    (readFile : String → String) (dm : List (String × XmlDoc)) (V : List String)
    (att : MimePart) :
    (replaceModeEmit rf readFile dm V att).contentId = att.contentId := by
  unfold replaceModeEmit
  split <;> rfl

theorem replaceModeEmit_infected (rf : List (String × String))
    (readFile : String → String) (dm : List (String × XmlDoc)) (V : List String)
    (a : MimePart) (raw : String) (hraw : a.contentId = some raw)
    (hin : extract_id raw ∈ V) :
    replaceModeEmit rf readFile dm V a
      = { a with content := replacementFor rf readFile dm (extract_id raw) } := by
  unfold replaceModeEmit
  rw [hraw]
  simp only [Option.getD_some, if_pos hin]

theorem replaceModeEmit_clean (rf : List (String × String))
    (readFile : String → String) (dm : List (String × XmlDoc)) (V : List String)
    (a : MimePart) (raw : String) (hraw : a.contentId = some raw)
    (hnin : extract_id raw ∉ V) :
    replaceModeEmit rf readFile dm V a = a := by
  unfold replaceModeEmit
  rw [hraw]
  simp only [Option.getD_some, if_neg hnin]

theorem replacementFor_eq (rf : List (String × String)) (readFile : String → String)
    (dm : List (String × XmlDoc)) (c : String) (d : XmlDoc) (m rc : String)
    (hd : lookupLast dm c = some d) (hm : d.mimeType = some m)
    (hrc : get_replacement rf readFile m = Except.ok rc) :
    replacementFor rf readFile dm c = rc := by
  unfold replacementFor
  simp only [hd, hm, hrc]

/-- The replace-mode attachment loop: with every attachment resolvable
    (Content-ID present, document found, uniqueId and mimeType present,
    replacement readable) the fold succeeds, re-attaching every part —
    infected ones with the replacement content — and leaving the XML
    state untouched. -/
theorem foldlM_handle_replace (rf : List (String × String)) (readFile : String → String)
    (V : List String) (ns : String) (dm : List (String × XmlDoc)) :
    ∀ (atts : List MimePart) (st : AvMutState),
    (∀ att ∈ atts, ∃ raw, att.contentId = some raw ∧
        ∃ d, lookupLast dm (extract_id raw) = some d ∧ d.uniqueId.isSome = true ∧
        ∃ m, d.mimeType = some m ∧ ∃ rc, get_replacement rf readFile m = Except.ok rc) →
    List.foldlM (handle_attachment false rf readFile V ns dm) st atts
      = Except.ok { st with
          msgParts := st.msgParts ++ atts.map (replaceModeEmit rf readFile dm V) } := by
  intro atts
  induction atts with
  | nil =>
    intro st _
    rw [List.foldlM_nil, List.map_nil, List.append_nil]
    rfl
  | cons a l ih =>
    intro st h
    obtain ⟨raw, hraw, d, hd, huid, m, hm, rc, hrc⟩ := h a (List.mem_cons_self a l)
    obtain ⟨u, hu⟩ := Option.isSome_iff_exists.mp huid
    rw [List.foldlM_cons]
    have hstep : handle_attachment false rf readFile V ns dm st a
        = Except.ok { st with
            msgParts := st.msgParts ++ [replaceModeEmit rf readFile dm V a] } := by
      unfold handle_attachment
      simp only [hraw, hd, hu, hm]
      by_cases hin : extract_id raw ∈ V
      · rw [if_pos hin]
        simp only [Bool.false_eq_true, if_false, hrc]
        rw [replaceModeEmit_infected rf readFile dm V a raw hraw hin,
            replacementFor_eq rf readFile dm (extract_id raw) d m rc hd hm hrc]
        rw [hraw]
      · rw [if_neg hin, replaceModeEmit_clean rf readFile dm V a raw hraw hin]
    rw [hstep, except_bind_ok]
    rw [ih _ (fun att ha => h att (List.mem_cons_of_mem a ha))]
    simp [List.append_assoc]

/-- The replace-mode splice: with the boundary parsed, the SOAP part
    clean, and every infected segment backed by an attachment,
    `build_payload` emits exactly the per-segment map `c2EmitSeg`. -/
theorem build_payload_replace (rf : List (String × String)) (readFile : String → String)
    (dm : List (String × XmlDoc)) (V : List String)
    (res : UpstreamResponse) (b : String) (soap : MimePart) (atts : List MimePart)
    (hb : boundary_param res.contentType = some b)
    (hsoap : extract_id (soap.contentId.getD ("")) ∉ V)
    (hseg : ∀ part ∈ pySplit res.content ("\r\n--" ++ b), ∀ c ∈ V,
        get_content_id part = some c →
        ∃ att ∈ atts, extract_id (att.contentId.getD ("")) = c) :
    build_payload false (soap :: atts.map (replaceModeEmit rf readFile dm V)) V res
      = Except.ok (joinSep ("\r\n--" ++ b)
          ((pySplit res.content ("\r\n--" ++ b)).map (c2EmitSeg rf readFile dm V))) := by
  unfold build_payload
  simp only [hb]
  congr 1
  congr 1
  apply filterMap_eq_map_of_mem
  intro part hp
  cases hcid : get_content_id part with
  | none => simp only [c2EmitSeg, hcid]
  | some c =>
    by_cases hin : c ∈ V
    · simp only [hcid, if_pos (Or.inl hin : c ∈ V ∨ (c = "root.message" ∧ false = true))]
      have hpsoap : ¬ ((fun a => c == extract_id (a.contentId.getD (""))) soap = true) := by
        simp only [beq_iff_eq]
        exact fun he => hsoap (he ▸ hin)
      rw [@List.find?_cons_of_neg MimePart (fun a => c == extract_id (a.contentId.getD ("")))
            soap (List.map (replaceModeEmit rf readFile dm V) atts) hpsoap,
          List.find?_map]
      have hpred : ((fun a => c == extract_id (a.contentId.getD ("")))
            ∘ replaceModeEmit rf readFile dm V)
          = (fun a => c == extract_id (a.contentId.getD (""))) := by
        funext a
        simp only [Function.comp_apply, replaceModeEmit_contentId]
      rw [hpred]
      obtain ⟨att0, hatt0, hkey0⟩ := hseg part hp c hin hcid
      have hex : ∃ x ∈ atts, (fun a => c == extract_id (a.contentId.getD (""))) x := by
        exact ⟨att0, hatt0, by simp [hkey0]⟩
      obtain ⟨a1, ha1⟩ := Option.isSome_iff_exists.mp (List.find?_isSome.mpr hex)
      have hkey1 : extract_id (a1.contentId.getD ("")) = c := by
        have := List.find?_some ha1
        simp only [beq_iff_eq] at this
        exact this.symm
      rw [ha1]
      simp only [Option.map_some']
      have hemit : replaceModeEmit rf readFile dm V a1
          = { a1 with content := replacementFor rf readFile dm c } := by
        unfold replaceModeEmit
        rw [hkey1, if_pos hin]
      rw [hemit]
      simp only [c2EmitSeg, hcid, if_pos hin]
    · simp only [hcid,
        if_neg (by simp [hin] : ¬ (c ∈ V ∨ (c = "root.message" ∧ false = true)))]
      simp only [c2EmitSeg, hcid, if_neg hin]

/-- C2: in replace mode, `run_antivirus` rewrites the body segment-wise:
    each segment whose Content-ID is infected keeps its header bytes
    verbatim and its body becomes the replacement for the joined document
    mimeType (through `get_replacement`, which falls back to the
    `text/plain` entry, as the second conjunct spells out); every other
    segment — the SOAP part included — is emitted byte-identical; the
    segments are re-joined with the verbatim upstream boundary.  Since
    the emitted list is a positional map over the upstream segments,
    unique upstream Content-IDs give exactly one attachment per infected
    Content-ID in the emitted body. -/
theorem c2_replace_mode_rewrite
    (png pdf : Bool) (scan : String → Except String (String × Option String))
    (rf : List (String × String)) (readFile : String → String)
    (et : List XmlDoc → Option String → List RegistryError → String)
    (res : UpstreamResponse) (pm : ParsedMsg) (rx : RetrieveDocSetXml)
    (rr : RegistryResponseXml) (ns b : String) (V : List String)
    (dm : List (String × XmlDoc))
    (hmp : pyStartsWith (pyLower res.contentType) ("multipart") = true)
    (hrd : pm.rdsr = some rx)
    (hscan : get_malicious_content_ids png pdf scan pm.attachments = Except.ok V)
    (hV : V ≠ [])
    (hrr : rx.registryResponse = some rr)
    (hns : extract_ns rr.tag = some ns)
    (hdm : xml_documents_map rx.docs = Except.ok dm)
    (hatts : ∀ att ∈ pm.attachments, ∃ raw, att.contentId = some raw ∧
        ∃ d, lookupLast dm (extract_id raw) = some d ∧ d.uniqueId.isSome = true ∧
        ∃ m, d.mimeType = some m ∧ ∃ rc, get_replacement rf readFile m = Except.ok rc)
    (hb : boundary_param res.contentType = some b)
    (hsoap : extract_id (pm.soapPart.contentId.getD ("")) ∉ V)
    (hseg : ∀ part ∈ pySplit res.content ("\r\n--" ++ b), ∀ c ∈ V,
        get_content_id part = some c →
        ∃ att ∈ pm.attachments, extract_id (att.contentId.getD ("")) = c) :
    run_antivirus false png pdf scan rf readFile et res pm
      = Except.ok (some
          { payload := joinSep ("\r\n--" ++ b)
              ((pySplit res.content ("\r\n--" ++ b)).map (c2EmitSeg rf readFile dm V)),
            soapXmlDocs := rx.docs,
            status := rr.status,
            errlist := errlistInit rr,
            msgParts := pm.soapPart
              :: pm.attachments.map (replaceModeEmit rf readFile dm V) })
    ∧ (∀ m f, lookupLast rf m = none → lookupLast rf ("text/plain") = some f →
        get_replacement rf readFile m = Except.ok (readFile f)) := by
  constructor
  · unfold run_antivirus
    rw [hmp, if_neg (show ¬ ((true : Bool) = false) by decide)]
    simp only [hrd, hscan]
    rw [if_neg hV]
    simp only [hrr, hns, hdm]
    rw [foldlM_handle_replace rf readFile V ns dm pm.attachments _ hatts]
    dsimp only
    rw [List.singleton_append]
    simp only [Bool.false_eq_true, if_false]
    rw [build_payload_replace rf readFile dm V res b pm.soapPart pm.attachments hb hsoap hseg]
  · intro m f hm hf
    unfold get_replacement
    rw [hm, hf]

/-- Witness for C2: the fixture response with one infected PDF
    attachment; the emitted body keeps every byte except the infected
    body of the infected segment, which becomes the PDF replacement. -/
theorem c2_witness :
    run_antivirus false false false wScan wRf wRead wEt wRes wPm
      = Except.ok (some wOut) := by
  have h := (c2_replace_mode_rewrite false false wScan wRf wRead wEt wRes wPm
    wRx wRr ("{ns1}") ("BND") wV wDm
    (by decide) rfl (by decide) (by decide) rfl (by decide) (by decide)
    (by
      intro att hatt
      rw [show wPm.attachments = [wAtt1] from rfl, List.mem_singleton] at hatt
      subst hatt
      exact ⟨"<doc1@x>", rfl, wDoc1, by decide, by decide, "application/pdf", rfl,
        "PDFREPL", by decide⟩)
    (by decide) (by decide) (by decide)).1
  exact h.trans (by decide)

/-- C9: once any attachment is judged infected, every attachment — the
    clean ones included — is looked up in the map from normalized
    `Include/@href` Content-IDs to `DocumentResponse` elements; an
    attachment whose normalized Content-ID has no matching
    `DocumentResponse` makes the whole request fail with an error, and no
    body is forwarded. -/
theorem c9_missing_document_fails
    (rm png pdf : Bool) (scan : String → Except String (String × Option String))
    (rf : List (String × String)) (readFile : String → String)
    (et : List XmlDoc → Option String → List RegistryError → String)
    (res : UpstreamResponse) (pm : ParsedMsg) (rx : RetrieveDocSetXml)
    (rr : RegistryResponseXml) (ns : String) (V : List String)
    (dm : List (String × XmlDoc))
    (hmp : pyStartsWith (pyLower res.contentType) ("multipart") = true)
    (hrd : pm.rdsr = some rx)
    (hscan : get_malicious_content_ids png pdf scan pm.attachments = Except.ok V)
    (hV : V ≠ [])
    (hrr : rx.registryResponse = some rr)
    (hns : extract_ns rr.tag = some ns)
    (hdm : xml_documents_map rx.docs = Except.ok dm)
    (att : MimePart) (hmem : att ∈ pm.attachments) (raw : String)
    (hraw : att.contentId = some raw)
    (hmiss : lookupLast dm (extract_id raw) = none) :
    isError (run_antivirus rm png pdf scan rf readFile et res pm) = true
    ∧ isError (phr_service rm png pdf scan rf readFile et res pm) = true := by
  have hstep : ∀ st, ∃ e, handle_attachment rm rf readFile V ns dm st att
      = Except.error e := by
    intro st
    unfold handle_attachment
    simp only [hraw, hmiss]
    exact ⟨_, rfl⟩
  have hfold := foldlM_error_of_mem (handle_attachment rm rf readFile V ns dm)
      pm.attachments att hmem hstep
  obtain ⟨e, he⟩ := hfold
    { msgParts := [pm.soapPart], docs := rx.docs, errlist := errlistInit rr }
  have hrun : run_antivirus rm png pdf scan rf readFile et res pm = Except.error e := by
    unfold run_antivirus
    rw [hmp, if_neg (show ¬ ((true : Bool) = false) by decide)]
    simp only [hrd, hscan]
    rw [if_neg hV]
    simp only [hrr, hns, hdm]
    rw [he]
  constructor
  · rw [hrun]
    rfl
  · unfold phr_service
    rw [hrun]
    rfl

/-- Witness for C9: the fixture message with one infected attachment and
    one clean attachment whose Content-ID `doc2` has no
    `DocumentResponse`; the whole rewrite fails. -/
theorem c9_witness :
    isError (run_antivirus false false false wScan wRf wRead wEt wRes wPm9) = true
    ∧ isError (phr_service false false false wScan wRf wRead wEt wRes wPm9) = true :=
  c9_missing_document_fails false false false wScan wRf wRead wEt wRes wPm9
    wRx wRr ("{ns1}") wV wDm (by decide) rfl (by decide) (by decide) rfl
    (by decide) (by decide) wAttClean (by decide) ("<doc2@x>") rfl (by decide)

end AvGate
